import Mathlib

/-!
Verification development for the `makina.recipe.postgres` buildout recipe
(`src/makina/recipe/postgres/__init__.py`).

The recipe is shallowly embedded: the options dictionary becomes an
association list with Python-dict semantics (update in place, append on new
key), every filesystem/subprocess side effect becomes an explicit `Act`
in a trace, and each external observation the code makes (path existence,
file contents, subprocess exit codes) is a parameter of the embedding.
-/

/-! ## Python-string helpers -/

/-- A single-quote character (ASCII 39), used so quoted strings can be
assembled explicitly. -/
def squote : String := String.mk [Char.ofNat 39]

/-- Does `s` start with the pattern `pat` (on character lists)? -/
def charsStarts : List Char → List Char → Bool
  | [], _ => true
  | _ :: _, [] => false
  | a :: as, b :: bs => a = b && charsStarts as bs

/-- Here `strStarts pat s` is true when the string `s` starts with `pat`. -/
def strStarts (pat s : String) : Bool := charsStarts pat.data s.data

/-- Python `str.split(sep)` on a single separator character. -/
def splitOnChar (sep : Char) : List Char → List (List Char)
  | [] => [[]]
  | c :: rest =>
    match splitOnChar sep rest with
    | [] => [[]]
    | g :: gs => if c = sep then [] :: g :: gs else (c :: g) :: gs

/-- Split a string on a separator character, Python `str.split(sep)`. -/
def pySplit (sep : Char) (s : String) : List String :=
  (splitOnChar sep s.data).map String.mk

/-- Python whitespace characters stripped by `str.strip()`. -/
def isPySpace (c : Char) : Bool :=
  c = ' ' || c = '\t' || c = '\n' || c = '\r' || c = Char.ofNat 11 || c = Char.ofNat 12

/-- Python `str.strip()`. -/
def pyStrip (s : String) : String :=
  String.mk (((s.data.dropWhile isPySpace).reverse.dropWhile isPySpace).reverse)

/-- Python `str.lower()` (ASCII case folding suffices here). -/
def pyLower (s : String) : String := String.mk (s.data.map Char.toLower)

/-- Lexicographic order on character lists by code point, as Python compares
strings. -/
def charsLt : List Char → List Char → Bool
  | [], [] => false
  | [], _ :: _ => true
  | _ :: _, [] => false
  | a :: as, b :: bs =>
    if a.val < b.val then true
    else if b.val < a.val then false
    else charsLt as bs

/-- Here `strLt a b` is true when `a` sorts strictly before `b` in Python order. -/
def strLt (a b : String) : Bool := charsLt a.data b.data

/-- Insert a string into an already sorted list. -/
def insortStr (x : String) : List String → List String
  | [] => [x]
  | y :: ys => if strLt x y then x :: y :: ys else y :: insortStr x ys

/-- Python `sorted` on a list of strings (insertion sort). -/
def pySorted : List String → List String
  | [] => []
  | x :: xs => insortStr x (pySorted xs)

/-- Python `sep.join(parts)`. -/
def joinStr (sep : String) : List String → String
  | [] => ""
  | [x] => x
  | x :: y :: rest => x ++ sep ++ joinStr sep (y :: rest)

/-- The part of `s` after its first `.`, Python `s.split(".", 1)[1]` for a
string known to contain a dot (the callers guard on the `config.` prefix,
which contains one). -/
def afterFirstDot : List Char → List Char
  | [] => []
  | c :: rest => if c = '.' then rest else afterFirstDot rest

/-- Does the character occur in the list? -/
def hasChar (c : Char) : List Char → Bool
  | [] => false
  | x :: xs => x = c || hasChar c xs

/-- One character of Python `repr` on a string quoted with `q`. -/
def pyReprChar (q c : Char) : List Char :=
  if c = '\\' then ['\\', '\\']
  else if c = q then ['\\', q]
  else if c = '\n' then ['\\', 'n']
  else if c = '\r' then ['\\', 'r']
  else if c = '\t' then ['\\', 't']
  else [c]

/-- Python `repr` of a string (the `!r` format conversion) for printable
text: single quotes by default, double quotes when the text contains a
single quote but no double quote. -/
def pyRepr (s : String) : String :=
  let q : Char :=
    if hasChar (Char.ofNat 39) s.data && !hasChar '"' s.data then '"' else Char.ofNat 39
  String.mk (q :: (s.data.map (pyReprChar q)).flatten ++ [q])

/-- Python `os.path.join` for the two-argument calls the recipe makes. -/
def pathJoin (a b : String) : String :=
  if strStarts "/" b then b
  else if a = "" then b
  else
    match a.data.getLast? with
    | some '/' => a ++ b
    | _ => a ++ "/" ++ b

/-! ## The options dictionary

Python dict with string keys and values: an association list where
assignment updates in place when the key exists and appends otherwise. -/

/-- Dictionary lookup, `options.get(k)` / `options[k]`. -/
def getOpt (k : String) : List (String × String) → Option String
  | [] => none
  | (k1, v) :: rest => if k1 = k then some v else getOpt k rest

/-- Dictionary assignment `options[k] = v`: update in place, append on a
new key. -/
def setKey (k v : String) : List (String × String) → List (String × String)
  | [] => [(k, v)]
  | (k1, v1) :: rest => if k1 = k then (k, v) :: rest else (k1, v1) :: setKey k v rest

/-- Python `options.setdefault(k, v)`: returns the resulting value and the
updated dictionary. -/
def setDef (k v : String) (l : List (String × String)) :
    String × List (String × String) :=
  match getOpt k l with
  | some w => (w, l)
  | none => (v, l ++ [(k, v)])

/-! ## Side-effect traces

Every filesystem or subprocess side effect the recipe performs becomes one
`Act`. Subprocess exit codes observed by the code are recorded in the
action that ran the subprocess. -/

inductive Act where
  | writeScript (path code : String)
  | chmod (path : String) (mode : Nat)
  | mkdir (path : String)
  | readFile (path : String)
  | writeFile (path content : String)
  | callInitdb (cmd : String) (exitCode : Nat)
  | checkCall (args : List String) (exitCode : Nat)
  | probeCall (attempt : Nat)
  | sleep (seconds : Nat)
  | callCmd (cmd : String) (env : List (String × String)) (exitCode : Nat)
deriving DecidableEq

/-- Actions that invoke a subprocess (`check_call`, `call`, the readiness
probe). -/
def Act.isSubprocess : Act → Bool
  | .callInitdb _ _ => true
  | .checkCall _ _ => true
  | .probeCall _ => true
  | .callCmd _ _ _ => true
  | _ => false

/-! ## The Recipe object -/

/-- The fields of the Python `Recipe` object set by `__init__` (plus the
`bin_pg_ctl`/`bin_pg_isready` attributes that `create_bin_script` sets
later via `setattr`; before that they are the class default `""`). -/
structure Recipe where
  name : String
  options : List (String × String)
  pgdata : String
  pg_bin_dir : String
  bin_dir : String
  socket_dir : String
  port : String
  cmds : String
  bin_pg_ctl : String
  bin_pg_isready : String
  pg_server_env : String
  pg_client_env : String
deriving DecidableEq

/-- The constant `CONFIG_PREFIX` in the source. -/
def configDot : String := "config."

/-- The class attribute `Recipe.local_conf_filename`. -/
def local_conf_filename : String := "postgresql.local.conf"

/-- The class attribute `Recipe.include_local_conf`: the include directive,
`include = 'postgresql.local.conf'`. -/
def include_local_conf : String :=
  "include = " ++ squote ++ local_conf_filename ++ squote

/-- The test `Recipe.include_re.search(conf)`: the pattern is `^` followed by the
escaped directive, and the regex is compiled without `re.MULTILINE`, so
`search` succeeds exactly when the whole string starts with the
directive. -/
def includeSearch (conf : String) : Bool := strStarts include_local_conf conf

/-- The template `pg_server_env` rendered for a recipe: `PGDATA={self.pgdata!r}`. -/
def renderServerEnv (pgdata : String) : String := "PGDATA=" ++ pyRepr pgdata

/-- The template `pg_client_env` rendered for a recipe:
`PGHOST={self.socket_dir!r} PGPORT={self.port}`. -/
def renderClientEnv (socket_dir port : String) : String :=
  "PGHOST=" ++ pyRepr socket_dir ++ " PGPORT=" ++ port

/-! ## `Recipe.__init__`

The constructor reads two values from the ambient buildout mapping:
`buildout['buildout']['parts-directory']` (only when `location` is absent
from the options; a missing key raises an uncaught `KeyError`, modelled as
an error value) and `buildout.get('buildout', {}).get('bin-directory',
'bin')`. Both are parameters of the embedding. -/

/-- The three `config.*` setdefault calls of `__init__`, in source order. -/
def stepConfigDefaults (socket_dir : String) (o : List (String × String)) :
    List (String × String) :=
  (setDef (configDot ++ "listen_addresses") (squote ++ squote)
    (setDef (configDot ++ "unix_socket_permissions") "0700"
      (setDef (configDot ++ "unix_socket_directories") (squote ++ socket_dir ++ squote)
        o).2).2).2

/-- The port branch of `__init__`: an explicit `port` option is copied to
`config.port`; an absent one makes the recipe write `'5432'` back into the
options under `port`. Returns `self.port` and the updated options. -/
def stepPort (port0 : Option String) (o : List (String × String)) :
    String × List (String × String) :=
  match port0 with
  | some p => (p, setKey (configDot ++ "port") p o)
  | none => ("5432", setKey "port" "5432" o)

/-- The `initdb` expansion of `__init__`: the literal value `true`
(case-insensitive) becomes `--auth-local=trust --pgdata=<pgdata>`. -/
def stepInitdb (pgdata : String) (o : List (String × String)) :
    List (String × String) :=
  if pyLower ((getOpt "initdb" o).getD "") = "true" then
    setKey "initdb" ("--auth-local=trust --pgdata=" ++ pgdata) o
  else o

/-- The constructor `Recipe.__init__(buildout, name, options)`.

`partsDirectory` models `buildout['buildout']['parts-directory']` when
present (`none` models a buildout without it, whose access raises an
uncaught `KeyError`); `buildoutBinDirectory` models
`buildout.get('buildout', {}).get('bin-directory', 'bin')` before the
`'bin'` default is applied. -/
def initRecipe (partsDirectory buildoutBinDirectory : Option String)
    (name : String) (options : List (String × String)) :
    Except String Recipe :=
  match
    (match getOpt "location" options with
     | some _ => Except.ok options
     | none =>
       match partsDirectory with
       | some pd =>
         Except.ok (setKey "prefix" (pathJoin pd name)
           (setKey "location" (pathJoin pd name) options))
       | none => Except.error ("KeyError: " ++ squote ++ "buildout" ++ squote))
  with
  | .error e => .error e
  | .ok o1 =>
    match getOpt "pgdata" o1 with
    | none =>
      .error ("Missing option in [" ++ name ++ "]: " ++ squote ++ "pgdata" ++ squote)
    | some pgdata =>
      match getOpt "bin" o1 with
      | none =>
        .error ("Missing option in [" ++ name ++ "]: " ++ squote ++ "bin" ++ squote)
      | some pg_bin_dir =>
        let bd := (setDef "bin-directory" (buildoutBinDirectory.getD "bin") o1)
        let bin_dir := bd.1
        let o2 := bd.2
        let socket_dir := (getOpt "socket_dir" o2).getD pgdata
        let port0 := getOpt "port" o2
        let o3 := stepConfigDefaults socket_dir o2
        let pp := stepPort port0 o3
        let port := pp.1
        let o4 := pp.2
        let o5 := stepInitdb pgdata o4
        let cmds := pyStrip ((getOpt "cmds" o5).getD "")
        .ok
          { name := name
            options := o5
            pgdata := pgdata
            pg_bin_dir := pg_bin_dir
            bin_dir := bin_dir
            socket_dir := socket_dir
            port := port
            cmds := cmds
            bin_pg_ctl := ""
            bin_pg_isready := ""
            pg_server_env := renderServerEnv pgdata
            pg_client_env := renderClientEnv socket_dir port }

/-! ## Script generation -/

/-- The templates `pg_server_command_template` and `pg_client_command_template` rendered:
the two templates are identical apart from which environment string is
interpolated. -/
def renderSimpleScript (env bin command : String) : String :=
  "#!/bin/bash\n" ++ env ++ " exec " ++ pyRepr bin ++ "/" ++ command ++ " \"$@\"\n"

/-- The template `pg_shift_command_template` rendered. -/
def renderShiftScript (env bin : String) : String :=
  "#!/bin/bash\nread -r -d " ++ squote ++ squote ++
  " USAGE <<EOM\nUsage:\n\n$0 <command> [args ...]\nEOM\n\nif [[ $# -eq 0 ]]; then\n\techo $USAGE\n\texit 1\nfi\ncommand=$1\nshift\n" ++
  env ++ " exec " ++ pyRepr bin ++ "/$command \"$@\"\n"

/-- The method `Recipe.create_bin_script`: write the script, `os.chmod(path, 0755)`
(octal `0755` = 493), record the path as attribute `bin_<command>` (only
`bin_pg_ctl` and `bin_pg_isready` are read later) and under
`options[command]`. -/
def create_bin_script (r : Recipe) (command code : String) : List Act × Recipe :=
  let path := pathJoin r.bin_dir command
  ([Act.writeScript path code, Act.chmod path 493],
   { r with
      options := setKey command path r.options
      bin_pg_ctl := if command = "pg_ctl" then path else r.bin_pg_ctl
      bin_pg_isready := if command = "pg_isready" then path else r.bin_pg_isready })

/-- The method `Recipe.create_bin_scripts`: the four fixed wrappers from
`pg_command_template_map` (dict iteration modelled in insertion order:
server commands, then client commands) followed by the two generic
dispatchers `<name>_server` and `<name>_client`. -/
def create_bin_scripts (r : Recipe) : List Act × Recipe :=
  let s1 := create_bin_script r "pg_ctl"
    (renderSimpleScript r.pg_server_env r.pg_bin_dir "pg_ctl")
  let s2 := create_bin_script s1.2 "postgres"
    (renderSimpleScript s1.2.pg_server_env s1.2.pg_bin_dir "postgres")
  let s3 := create_bin_script s2.2 "psql"
    (renderSimpleScript s2.2.pg_client_env s2.2.pg_bin_dir "psql")
  let s4 := create_bin_script s3.2 "pg_isready"
    (renderSimpleScript s3.2.pg_client_env s3.2.pg_bin_dir "pg_isready")
  let s5 := create_bin_script s4.2 (s4.2.name ++ "_server")
    (renderShiftScript s4.2.pg_server_env s4.2.pg_bin_dir)
  let s6 := create_bin_script s5.2 (s5.2.name ++ "_client")
    (renderShiftScript s5.2.pg_client_env s5.2.pg_bin_dir)
  (s1.1 ++ s2.1 ++ s3.1 ++ s4.1 ++ s5.1 ++ s6.1, s6.2)

/-! ## Configuration merging -/

/-- The main configuration file, `os.path.join(self.pgdata, 'postgresql.conf')`. -/
def confFilePath (r : Recipe) : String := pathJoin r.pgdata "postgresql.conf"

/-- The override file, `os.path.join(self.pgdata, self.local_conf_filename)`. -/
def localConfPath (r : Recipe) : String := pathJoin r.pgdata local_conf_filename

/-- The include-merge step of `Recipe.configure` as a pure function on the
main configuration file's content: when `include_re.search` fails, append
`"\n\n%s\n" % include_local_conf`. -/
def mergeInclude (conf : String) : String :=
  if includeSearch conf then conf else conf ++ "\n\n" ++ include_local_conf ++ "\n"

/-- The override-file content generated by `Recipe.configure`: one
`bare-key = value` line per option whose key starts with `config.`,
iterating `sorted(self.options.keys())`, stripping the key up to its first
dot, joined with newlines. -/
def localConf (options : List (String × String)) : String :=
  joinStr "\n"
    (((pySorted (options.map Prod.fst)).filter fun n => strStarts configDot n).map
      fun n => String.mk (afterFirstDot n.data) ++ " = " ++ ((getOpt n options).getD ""))

/-- The method `Recipe.configure`: read `postgresql.conf` (a missing file raises an
uncaught `IOError` from `open`, modelled as an error value), append the
include directive when the anchored search fails, and overwrite the
override file wholesale. `conf` is the current content of
`postgresql.conf`, `none` when the file does not exist. -/
def configure (r : Recipe) (conf : Option String) : List Act × Except String Unit :=
  match conf with
  | none => ([], Except.error ("IOError: " ++ confFilePath r))
  | some c =>
    let includeActs : List Act :=
      if includeSearch c then []
      else [Act.writeFile (confFilePath r) (mergeInclude c)]
    (Act.readFile (confFilePath r) :: includeActs ++
      [Act.writeFile (localConfPath r) (localConf r.options)], Except.ok ())

/-! ## Lifecycle subprocess steps -/

/-- The method `Recipe.initdb`: run the initialization binary only when the `initdb`
option is set to a truthy (non-empty) string and the data directory is
still absent; a non-zero exit of `check_call` raises
`CalledProcessError`. -/
def initdbRun (r : Recipe) (pgdataExists : Bool) (exitCode : Nat) :
    List Act × Except String Unit :=
  match getOpt "initdb" r.options with
  | none => ([], Except.ok ())
  | some s =>
    if s ≠ "" && !pgdataExists then
      let cmd := pathJoin r.pg_bin_dir "initdb" ++ " " ++ s
      ([Act.callInitdb cmd exitCode],
       if exitCode = 0 then Except.ok ()
       else Except.error ("CalledProcessError: " ++ cmd))
    else ([], Except.ok ())

/-- The method `Recipe.is_db_listening`: a readiness probe inside
`try`; a `CalledProcessError` (non-zero exit) is caught and turned into
`False`, so a failing probe is "not ready", not an error. -/
def is_db_listening (exitCode : Nat) : Bool := exitCode == 0

/-- The readiness-polling loop of `Recipe.startdb` (`for _ in range(10)`):
probe; on success break, otherwise `time.sleep(1)` and continue.
`probe i` is the exit code of the i-th readiness probe. Returns the trace
and whether readiness was observed. -/
def pollWait (probe : Nat → Nat) : Nat → Nat → List Act × Bool
  | i, 0 =>
    let _ := i
    ([], false)
  | i, Nat.succ fuel =>
    if is_db_listening (probe i) then ([Act.probeCall i], true)
    else
      let rest := pollWait probe (i + 1) fuel
      (Act.probeCall i :: Act.sleep 1 :: rest.1, rest.2)

/-- The method `Recipe.startdb`: issue `pg_ctl restart` when the PID file exists, else
`pg_ctl start` (a non-zero exit raises), then poll readiness up to 10
times; if the loop completes without a break, raise
`RuntimeError("Failed to start postgres")`. -/
def startdb (r : Recipe) (pidfileExists : Bool) (ctlExit : Nat)
    (probe : Nat → Nat) : List Act × Except String Unit :=
  let args := [r.bin_pg_ctl, if pidfileExists then "restart" else "start"]
  if ctlExit ≠ 0 then
    ([Act.checkCall args ctlExit], Except.error "CalledProcessError: pg_ctl")
  else
    let poll := pollWait probe 0 10
    (Act.checkCall args ctlExit :: poll.1,
     if poll.2 then Except.ok () else Except.error "Failed to start postgres")

/-- The method `Recipe.stopdb`: only when the PID file exists, `check_call` the stop
command (non-zero exit raises) and then `time.sleep(4)`; otherwise do
nothing. -/
def stopdb (r : Recipe) (pidfileExists : Bool) (stopExit : Nat) :
    List Act × Except String Unit :=
  if pidfileExists then
    if stopExit = 0 then
      ([Act.checkCall [r.bin_pg_ctl, "stop"] stopExit, Act.sleep 4], Except.ok ())
    else
      ([Act.checkCall [r.bin_pg_ctl, "stop"] stopExit],
       Except.error "CalledProcessError: pg_ctl stop")
  else ([], Except.ok ())

/-- The loop of `Recipe.do_cmds`: skip empty entries, run everything else
with `subprocess.call`, whose return value (the exit code, `exitC i` for
the i-th executed command) is discarded. -/
def doCmdsLoop (binDir : String) (env : List (String × String))
    (exitC : Nat → Nat) : Nat → List String → List Act
  | _, [] => []
  | i, c :: rest =>
    if c = "" then doCmdsLoop binDir env exitC i rest
    else
      Act.callCmd (binDir ++ "/" ++ c) env (exitC i) ::
        doCmdsLoop binDir env exitC (i + 1) rest

/-- The method `Recipe.do_cmds`: nothing when `self.cmds` is empty, otherwise split on
`os.linesep` (`"\n"` on the target platform) and run each non-empty entry
with `PGHOST`/`PGPORT` added to the environment. -/
def do_cmds (r : Recipe) (exitC : Nat → Nat) : List Act :=
  if r.cmds = "" then []
  else
    doCmdsLoop r.pg_bin_dir [("PGHOST", r.socket_dir), ("PGPORT", r.port)]
      exitC 0 (pySplit '\n' r.cmds)

/-! ## Install / update / uninstall -/

/-- The external observations install makes: path existence at each check,
file contents, and the exit code of each subprocess. -/
structure World where
  locationExists : Bool
  pgdataExists : Bool
  pidfileAtStart : Bool
  pidfileAtStop : Bool
  initdbExit : Nat
  pgCtlExit : Nat
  stopExit : Nat
  probe : Nat → Nat
  cmdExit : Nat → Nat
  confFile : Option String

/-- The method `Recipe.install` (also bound as `update`): generate the wrapper
scripts, ensure the location directory exists, and then either refresh the
configuration only (data directory present) or run the full
initdb → configure → start → run-commands → stop sequence. Returns the
trace and the result (`options['location']` on success). -/
def install (r : Recipe) (w : World) : List Act × Except String String :=
  let cbs := create_bin_scripts r
  let r1 := cbs.2
  let loc := (getOpt "location" r1.options).getD ""
  let mk : List Act := if w.locationExists then [] else [Act.mkdir loc]
  if w.pgdataExists then
    let cfg := configure r1 w.confFile
    (cbs.1 ++ mk ++ cfg.1,
     match cfg.2 with
     | .ok _ => Except.ok loc
     | .error e => Except.error e)
  else
    let ini := initdbRun r1 w.pgdataExists w.initdbExit
    match ini.2 with
    | .error e => (cbs.1 ++ mk ++ ini.1, Except.error e)
    | .ok _ =>
      let cfg := configure r1 w.confFile
      match cfg.2 with
      | .error e => (cbs.1 ++ mk ++ ini.1 ++ cfg.1, Except.error e)
      | .ok _ =>
        let st := startdb r1 w.pidfileAtStart w.pgCtlExit w.probe
        match st.2 with
        | .error e => (cbs.1 ++ mk ++ ini.1 ++ cfg.1 ++ st.1, Except.error e)
        | .ok _ =>
          let dc := do_cmds r1 w.cmdExit
          let sp := stopdb r1 w.pidfileAtStop w.stopExit
          match sp.2 with
          | .error e =>
            (cbs.1 ++ mk ++ ini.1 ++ cfg.1 ++ st.1 ++ dc ++ sp.1, Except.error e)
          | .ok _ =>
            (cbs.1 ++ mk ++ ini.1 ++ cfg.1 ++ st.1 ++ dc ++ sp.1, Except.ok loc)

/-- Constructing the recipe and running install, as buildout does: a
constructor failure aborts before any side effect. -/
def installRun (partsDirectory buildoutBinDirectory : Option String)
    (name : String) (options : List (String × String)) (w : World) :
    List Act × Except String String :=
  match initRecipe partsDirectory buildoutBinDirectory name options with
  | .error e => ([], Except.error e)
  | .ok r => install r w

/-- The module-level `uninstall(name, options)` entry point:
`Recipe({}, name, options).stopdb()` — the buildout mapping is empty, so
both buildout-derived parameters are absent. -/
def uninstallRun (name : String) (options : List (String × String))
    (pidfileExists : Bool) (stopExit : Nat) : Except String (List Act) :=
  match initRecipe none none name options with
  | .error e => Except.error e
  | .ok r =>
    let sp := stopdb r pidfileExists stopExit
    match sp.2 with
    | .ok _ => Except.ok sp.1
    | .error e => Except.error e

/-! ## Frame lemmas for the constructor pipeline -/

/-- The `location`/`prefix` step of `__init__` in the case where the
buildout mapping provides `parts-directory`. -/
def o1Step (pd name : String) (opts : List (String × String)) :
    List (String × String) :=
  match getOpt "location" opts with
  | some _ => opts
  | none =>
    setKey "prefix" (pathJoin pd name) (setKey "location" (pathJoin pd name) opts)

/-- The options after the `bin-directory` setdefault. -/
def o2Step (bbd : Option String) (o1 : List (String × String)) :
    List (String × String) :=
  (setDef "bin-directory" (bbd.getD "bin") o1).2

/-! ## Helpers for concrete witnesses -/

/-- A fallback recipe value (never reached by the witnesses, which apply
`recipeOf` only where the constructor succeeds). -/
def emptyRecipe : Recipe :=
  { name := "", options := [], pgdata := "", pg_bin_dir := "", bin_dir := ""
    socket_dir := "", port := "", cmds := "", bin_pg_ctl := "", bin_pg_isready := ""
    pg_server_env := "", pg_client_env := "" }

/-- The recipe the constructor builds on a given input (witness helper). -/
def recipeOf (pd bbd : Option String) (name : String)
    (opts : List (String × String)) : Recipe :=
  (initRecipe pd bbd name opts).toOption.getD emptyRecipe

/-- A concrete benign world for witnesses. -/
def sampleWorld : World :=
  { locationExists := true, pgdataExists := true, pidfileAtStart := false
    pidfileAtStop := false, initdbExit := 0, pgCtlExit := 0, stopExit := 0
    probe := fun _ => 0, cmdExit := fun _ => 0, confFile := some "" }

/-! ## Include-directive counting, run-commands projections -/

/-- Number of lines of a configuration file that consist exactly of the
include directive. -/
def includeLineCount (conf : String) : Nat :=
  ((splitOnChar '\n' conf.data).filter fun l => l = include_local_conf.data).length

/-- The command string and injected environment of a `subprocess.call`
action (the run-commands step emits nothing else). -/
def cmdOf : Act → String × List (String × String)
  | Act.callCmd c env _ => (c, env)
  | _ => ("", [])

/-- A concrete recipe whose `cmds` option holds two commands (witness
helper for the run-commands step). -/
def cmdsRecipe : Recipe :=
  { name := "pg", options := [], pgdata := "/data/pg", pg_bin_dir := "/opt/pg/bin"
    bin_dir := "bin", socket_dir := "/tmp/sock", port := "5432"
    cmds := "createdb\npsql", bin_pg_ctl := "", bin_pg_isready := ""
    pg_server_env := "", pg_client_env := "" }

/-! ## Readiness polling -/

/-- The trace of a polling loop in which every probe fails: probe, sleep
one second, repeat. -/
def failTrace : Nat → Nat → List Act
  | _, 0 => []
  | i, Nat.succ fuel => Act.probeCall i :: Act.sleep 1 :: failTrace (i + 1) fuel

/-! ## Theorems -/

theorem getOpt_setKey_self (k v : String) (l : List (String × String)) :
    getOpt k (setKey k v l) = some v := by
  induction l with
  | nil => simp [setKey, getOpt]
  | cons p rest ih =>
    obtain ⟨k1, v1⟩ := p
    by_cases h : k1 = k <;> simp [setKey, getOpt, h, ih]

theorem getOpt_setKey_ne (k k1 v : String) (l : List (String × String))
    (h : k1 ≠ k) : getOpt k (setKey k1 v l) = getOpt k l := by
  induction l with
  | nil => simp [setKey, getOpt, h]
  | cons p rest ih =>
    obtain ⟨k2, v2⟩ := p
    by_cases h2 : k2 = k1
    · subst h2
      simp [setKey, getOpt, h]
    · by_cases h3 : k2 = k <;> simp [setKey, getOpt, h2, h3, Ne.symm h, ih]

theorem getOpt_append_single (k k1 v : String) (l : List (String × String)) :
    getOpt k (l ++ [(k1, v)]) =
      match getOpt k l with
      | some w => some w
      | none => if k1 = k then some v else none := by
  induction l with
  | nil => simp [getOpt]
  | cons p rest ih =>
    obtain ⟨k2, v2⟩ := p
    by_cases h : k2 = k <;> simp [getOpt, h, ih]

theorem getOpt_setDef_ne (k k1 v : String) (l : List (String × String))
    (h : k1 ≠ k) : getOpt k (setDef k1 v l).2 = getOpt k l := by
  unfold setDef
  cases hg : getOpt k1 l with
  | some w => simp
  | none =>
    simp only
    rw [getOpt_append_single]
    cases hk : getOpt k l with
    | some w => simp
    | none => simp [h]

theorem getOpt_setDef_self (k v : String) (l : List (String × String)) :
    getOpt k (setDef k v l).2 = some ((getOpt k l).getD v) := by
  unfold setDef
  cases hg : getOpt k l with
  | some w => simp [hg]
  | none =>
    simp only
    rw [getOpt_append_single]
    simp [hg]

theorem o1Step_frame (pd name k : String) (opts : List (String × String))
    (h1 : k ≠ "location") (h2 : k ≠ "prefix") :
    getOpt k (o1Step pd name opts) = getOpt k opts := by
  unfold o1Step
  cases hloc : getOpt "location" opts with
  | some v => rfl
  | none =>
    rw [getOpt_setKey_ne _ _ _ _ (Ne.symm h2), getOpt_setKey_ne _ _ _ _ (Ne.symm h1)]

theorem o2Step_frame (bbd : Option String) (k : String)
    (o1 : List (String × String)) (h : k ≠ "bin-directory") :
    getOpt k (o2Step bbd o1) = getOpt k o1 := by
  unfold o2Step
  rw [getOpt_setDef_ne _ _ _ _ (Ne.symm h)]

theorem stepConfigDefaults_frame (s k : String) (o : List (String × String))
    (h1 : k ≠ configDot ++ "unix_socket_directories")
    (h2 : k ≠ configDot ++ "unix_socket_permissions")
    (h3 : k ≠ configDot ++ "listen_addresses") :
    getOpt k (stepConfigDefaults s o) = getOpt k o := by
  unfold stepConfigDefaults
  rw [getOpt_setDef_ne _ _ _ _ (Ne.symm h3), getOpt_setDef_ne _ _ _ _ (Ne.symm h2),
    getOpt_setDef_ne _ _ _ _ (Ne.symm h1)]

theorem stepPort_frame_some (p k : String) (o : List (String × String))
    (h : k ≠ configDot ++ "port") :
    getOpt k (stepPort (some p) o).2 = getOpt k o := by
  unfold stepPort
  exact getOpt_setKey_ne _ _ _ _ (Ne.symm h)

theorem stepPort_frame_none (k : String) (o : List (String × String))
    (h : k ≠ "port") : getOpt k (stepPort none o).2 = getOpt k o := by
  unfold stepPort
  exact getOpt_setKey_ne _ _ _ _ (Ne.symm h)

theorem stepPort_fst (p0 : Option String) (o : List (String × String)) :
    (stepPort p0 o).1 = p0.getD "5432" := by
  cases p0 <;> rfl

theorem stepInitdb_frame (g k : String) (o : List (String × String))
    (h : k ≠ "initdb") : getOpt k (stepInitdb g o) = getOpt k o := by
  unfold stepInitdb
  split
  · exact getOpt_setKey_ne _ _ _ _ (Ne.symm h)
  · rfl

/-- The successful run of `__init__` characterised in terms of the step
functions, given that `pgdata` and `bin` are present and the buildout
mapping has a `parts-directory`. -/
theorem initRecipe_ok (pd : String) (bbd : Option String) (name : String)
    (opts : List (String × String)) (g b : String)
    (hp : getOpt "pgdata" opts = some g) (hb : getOpt "bin" opts = some b) :
    initRecipe (some pd) bbd name opts =
      Except.ok
        { name := name
          options := stepInitdb g
            (stepPort (getOpt "port" (o2Step bbd (o1Step pd name opts)))
              (stepConfigDefaults
                ((getOpt "socket_dir" (o2Step bbd (o1Step pd name opts))).getD g)
                (o2Step bbd (o1Step pd name opts)))).2
          pgdata := g
          pg_bin_dir := b
          bin_dir := (setDef "bin-directory" (bbd.getD "bin") (o1Step pd name opts)).1
          socket_dir := (getOpt "socket_dir" (o2Step bbd (o1Step pd name opts))).getD g
          port := (getOpt "port" (o2Step bbd (o1Step pd name opts))).getD "5432"
          cmds := pyStrip ((getOpt "cmds"
            (stepInitdb g
              (stepPort (getOpt "port" (o2Step bbd (o1Step pd name opts)))
                (stepConfigDefaults
                  ((getOpt "socket_dir" (o2Step bbd (o1Step pd name opts))).getD g)
                  (o2Step bbd (o1Step pd name opts)))).2)).getD "")
          bin_pg_ctl := ""
          bin_pg_isready := ""
          pg_server_env := renderServerEnv g
          pg_client_env := renderClientEnv
            ((getOpt "socket_dir" (o2Step bbd (o1Step pd name opts))).getD g)
            ((getOpt "port" (o2Step bbd (o1Step pd name opts))).getD "5432") } := by
  have hp1 : getOpt "pgdata" (o1Step pd name opts) = some g := by
    rw [o1Step_frame _ _ _ _ (by decide) (by decide)]; exact hp
  have hb1 : getOpt "bin" (o1Step pd name opts) = some b := by
    rw [o1Step_frame _ _ _ _ (by decide) (by decide)]; exact hb
  unfold initRecipe
  cases hloc : getOpt "location" opts with
  | some v =>
    have ho1 : o1Step pd name opts = opts := by unfold o1Step; rw [hloc]
    rw [ho1] at hp1 hb1
    simp only [hloc, hp1, hb1, ho1, o2Step, stepPort_fst]
  | none =>
    have ho1 : o1Step pd name opts =
        setKey "prefix" (pathJoin pd name) (setKey "location" (pathJoin pd name) opts) := by
      unfold o1Step; rw [hloc]
    rw [ho1] at hp1 hb1
    simp only [hloc, hp1, hb1, ho1, o2Step, stepPort_fst]

/-- Claim C4: for every options mapping missing the `pgdata` key or the
`bin` key, install fails with a `UserError` naming the missing key
(`pgdata` is checked first) before any filesystem or subprocess side
effect occurs: the trace is empty. -/
theorem C4_missing_mandatory_option (pd : String) (bbd : Option String)
    (name : String) (opts : List (String × String)) (w : World) :
    (getOpt "pgdata" opts = none →
      installRun (some pd) bbd name opts w =
        ([], Except.error
          ("Missing option in [" ++ name ++ "]: " ++ squote ++ "pgdata" ++ squote))) ∧
    (∀ g, getOpt "pgdata" opts = some g → getOpt "bin" opts = none →
      installRun (some pd) bbd name opts w =
        ([], Except.error
          ("Missing option in [" ++ name ++ "]: " ++ squote ++ "bin" ++ squote))) := by
  constructor
  · intro hp
    have hp1 : getOpt "pgdata" (o1Step pd name opts) = none := by
      rw [o1Step_frame _ _ _ _ (by decide) (by decide)]; exact hp
    unfold installRun initRecipe
    cases hloc : getOpt "location" opts with
    | some v =>
      have : o1Step pd name opts = opts := by unfold o1Step; rw [hloc]
      rw [this] at hp1
      simp [hloc, hp1]
    | none =>
      have : o1Step pd name opts =
          setKey "prefix" (pathJoin pd name) (setKey "location" (pathJoin pd name) opts) := by
        unfold o1Step; rw [hloc]
      rw [this] at hp1
      simp [hloc, hp1]
  · intro g hp hb
    have hp1 : getOpt "pgdata" (o1Step pd name opts) = some g := by
      rw [o1Step_frame _ _ _ _ (by decide) (by decide)]; exact hp
    have hb1 : getOpt "bin" (o1Step pd name opts) = none := by
      rw [o1Step_frame _ _ _ _ (by decide) (by decide)]; exact hb
    unfold installRun initRecipe
    cases hloc : getOpt "location" opts with
    | some v =>
      have ho : o1Step pd name opts = opts := by unfold o1Step; rw [hloc]
      rw [ho] at hp1 hb1
      simp [hloc, hp1, hb1]
    | none =>
      have ho : o1Step pd name opts =
          setKey "prefix" (pathJoin pd name) (setKey "location" (pathJoin pd name) opts) := by
        unfold o1Step; rw [hloc]
      rw [ho] at hp1 hb1
      simp [hloc, hp1, hb1]

theorem C4_witness :
    installRun (some "/parts") none "pg" [("bin", "/opt/pg/bin")] sampleWorld =
      ([], Except.error
        ("Missing option in [" ++ "pg" ++ "]: " ++ squote ++ "pgdata" ++ squote)) :=
  (C4_missing_mandatory_option "/parts" none "pg" [("bin", "/opt/pg/bin")]
    sampleWorld).1 (by decide)

/-- Claim C5: an `initdb` option equal to the literal `true`
(case-insensitive) expands to exactly `--auth-local=trust --pgdata=<pgdata>`;
any other value is left as given. -/
theorem C5_initdb_expansion (pd : String) (bbd : Option String) (name : String)
    (opts : List (String × String)) (g b : String) (r : Recipe)
    (hp : getOpt "pgdata" opts = some g) (hb : getOpt "bin" opts = some b)
    (hr : initRecipe (some pd) bbd name opts = Except.ok r) :
    (pyLower ((getOpt "initdb" opts).getD "") = "true" →
      getOpt "initdb" r.options = some ("--auth-local=trust --pgdata=" ++ g)) ∧
    (pyLower ((getOpt "initdb" opts).getD "") ≠ "true" →
      getOpt "initdb" r.options = getOpt "initdb" opts) := by
  rw [initRecipe_ok pd bbd name opts g b hp hb] at hr
  injection hr with hr
  subst hr
  have hkey : ∀ o3 : List (String × String),
      getOpt "initdb" (stepPort (getOpt "port" (o2Step bbd (o1Step pd name opts))) o3).2
        = getOpt "initdb" o3 := by
    intro o3
    cases hport : getOpt "port" (o2Step bbd (o1Step pd name opts)) with
    | some p => exact stepPort_frame_some _ _ _ (by decide)
    | none => exact stepPort_frame_none _ _ (by decide)
  have hkey2 : getOpt "initdb"
      (stepPort (getOpt "port" (o2Step bbd (o1Step pd name opts)))
        (stepConfigDefaults
          ((getOpt "socket_dir" (o2Step bbd (o1Step pd name opts))).getD g)
          (o2Step bbd (o1Step pd name opts)))).2 = getOpt "initdb" opts := by
    rw [hkey, stepConfigDefaults_frame _ _ _ (by decide) (by decide) (by decide),
      o2Step_frame _ _ _ (by decide), o1Step_frame _ _ _ _ (by decide) (by decide)]
  constructor
  · intro ht
    show getOpt "initdb" (stepInitdb g _) = _
    unfold stepInitdb
    rw [hkey2, if_pos ht]
    exact getOpt_setKey_self _ _ _
  · intro hf
    show getOpt "initdb" (stepInitdb g _) = _
    unfold stepInitdb
    rw [hkey2, if_neg hf]
    exact hkey2

theorem C5_witness :
    pyLower ((getOpt "initdb"
      [("pgdata", "/data/pg"), ("bin", "/opt/pg/bin"), ("initdb", "True")]).getD "")
        = "true" ∧
    getOpt "initdb" (recipeOf (some "/parts") none "pg"
      [("pgdata", "/data/pg"), ("bin", "/opt/pg/bin"), ("initdb", "True")]).options =
      some ("--auth-local=trust --pgdata=" ++ "/data/pg") :=
  ⟨by decide,
    (C5_initdb_expansion "/parts" none "pg"
      [("pgdata", "/data/pg"), ("bin", "/opt/pg/bin"), ("initdb", "True")]
      "/data/pg" "/opt/pg/bin"
      (recipeOf (some "/parts") none "pg"
        [("pgdata", "/data/pg"), ("bin", "/opt/pg/bin"), ("initdb", "True")])
      (by decide) (by decide) (by rfl)).1 (by decide)⟩

/-- Claim C7: an explicit `port` option is recorded as `self.port` and
injected into the server config options under `config.port`; an absent one
defaults to `5432` for client-wrapper purposes only (written back under
`port`), and no `config.port` key is added, so the key is exactly what the
caller supplied (if anything). -/
theorem C7_port_resolution (pd : String) (bbd : Option String) (name : String)
    (opts : List (String × String)) (g b : String) (r : Recipe)
    (hp : getOpt "pgdata" opts = some g) (hb : getOpt "bin" opts = some b)
    (hr : initRecipe (some pd) bbd name opts = Except.ok r) :
    (∀ p, getOpt "port" opts = some p →
      r.port = p ∧ getOpt (configDot ++ "port") r.options = some p) ∧
    (getOpt "port" opts = none →
      r.port = "5432" ∧ getOpt "port" r.options = some "5432" ∧
      getOpt (configDot ++ "port") r.options = getOpt (configDot ++ "port") opts) := by
  rw [initRecipe_ok pd bbd name opts g b hp hb] at hr
  injection hr with hr
  subst hr
  have hport2 : getOpt "port" (o2Step bbd (o1Step pd name opts)) =
      getOpt "port" opts := by
    rw [o2Step_frame _ _ _ (by decide), o1Step_frame _ _ _ _ (by decide) (by decide)]
  constructor
  · intro p hsome
    constructor
    · show (getOpt "port" (o2Step bbd (o1Step pd name opts))).getD "5432" = p
      rw [hport2, hsome]
      rfl
    · show getOpt (configDot ++ "port") (stepInitdb g _) = some p
      rw [stepInitdb_frame _ _ _ (by decide), hport2, hsome]
      unfold stepPort
      exact getOpt_setKey_self _ _ _
  · intro hnone
    refine ⟨?_, ?_, ?_⟩
    · show (getOpt "port" (o2Step bbd (o1Step pd name opts))).getD "5432" = "5432"
      rw [hport2, hnone]
      rfl
    · show getOpt "port" (stepInitdb g _) = some "5432"
      rw [stepInitdb_frame _ _ _ (by decide), hport2, hnone]
      unfold stepPort
      exact getOpt_setKey_self _ _ _
    · show getOpt (configDot ++ "port") (stepInitdb g _) = _
      rw [stepInitdb_frame _ _ _ (by decide), hport2, hnone,
        stepPort_frame_none _ _ (by decide),
        stepConfigDefaults_frame _ _ _ (by decide) (by decide) (by decide),
        o2Step_frame _ _ _ (by decide), o1Step_frame _ _ _ _ (by decide) (by decide)]

theorem C7_witness :
    (recipeOf (some "/parts") none "pg"
      [("pgdata", "/data/pg"), ("bin", "/opt/pg/bin"), ("port", "5544")]).port
        = "5544" ∧
    getOpt (configDot ++ "port") (recipeOf (some "/parts") none "pg"
      [("pgdata", "/data/pg"), ("bin", "/opt/pg/bin"), ("port", "5544")]).options
        = some "5544" :=
  (C7_port_resolution "/parts" none "pg"
    [("pgdata", "/data/pg"), ("bin", "/opt/pg/bin"), ("port", "5544")]
    "/data/pg" "/opt/pg/bin"
    (recipeOf (some "/parts") none "pg"
      [("pgdata", "/data/pg"), ("bin", "/opt/pg/bin"), ("port", "5544")])
    (by decide) (by decide) (by rfl)).1 "5544" (by decide)

/-- Claim C10: on an options mapping without a `port` key the constructor
writes `'5432'` back under `port`, and every key other than the documented
ones (`location`, `prefix`, `bin-directory`, the three `config.*`
defaults, `port` itself and the `initdb` expansion) keeps exactly the
value the caller supplied. -/
theorem C10_default_port_frame (pd : String) (bbd : Option String)
    (name : String) (opts : List (String × String)) (g b : String) (r : Recipe)
    (hp : getOpt "pgdata" opts = some g) (hb : getOpt "bin" opts = some b)
    (hnone : getOpt "port" opts = none)
    (hr : initRecipe (some pd) bbd name opts = Except.ok r) :
    getOpt "port" r.options = some "5432" ∧
    (∀ k, k ≠ "location" → k ≠ "prefix" → k ≠ "bin-directory" →
      k ≠ configDot ++ "unix_socket_directories" →
      k ≠ configDot ++ "unix_socket_permissions" →
      k ≠ configDot ++ "listen_addresses" →
      k ≠ "port" → k ≠ "initdb" →
      getOpt k r.options = getOpt k opts) := by
  rw [initRecipe_ok pd bbd name opts g b hp hb] at hr
  injection hr with hr
  subst hr
  have hport2 : getOpt "port" (o2Step bbd (o1Step pd name opts)) =
      getOpt "port" opts := by
    rw [o2Step_frame _ _ _ (by decide), o1Step_frame _ _ _ _ (by decide) (by decide)]
  constructor
  · show getOpt "port" (stepInitdb g _) = some "5432"
    rw [stepInitdb_frame _ _ _ (by decide), hport2, hnone]
    unfold stepPort
    exact getOpt_setKey_self _ _ _
  · intro k h1 h2 h3 h4 h5 h6 h7 h8
    show getOpt k (stepInitdb g _) = _
    rw [stepInitdb_frame _ _ _ h8, hport2, hnone,
      stepPort_frame_none _ _ h7,
      stepConfigDefaults_frame _ _ _ h4 h5 h6,
      o2Step_frame _ _ _ h3, o1Step_frame _ _ _ _ h1 h2]

theorem C10_witness :
    getOpt "port" (recipeOf (some "/parts") none "pg"
      [("pgdata", "/data/pg"), ("bin", "/opt/pg/bin"), ("socket_dir", "/tmp/sock")]).options
        = some "5432" ∧
    getOpt "socket_dir" (recipeOf (some "/parts") none "pg"
      [("pgdata", "/data/pg"), ("bin", "/opt/pg/bin"), ("socket_dir", "/tmp/sock")]).options
        = some "/tmp/sock" := by
  have h := C10_default_port_frame "/parts" none "pg"
    [("pgdata", "/data/pg"), ("bin", "/opt/pg/bin"), ("socket_dir", "/tmp/sock")]
    "/data/pg" "/opt/pg/bin"
    (recipeOf (some "/parts") none "pg"
      [("pgdata", "/data/pg"), ("bin", "/opt/pg/bin"), ("socket_dir", "/tmp/sock")])
    (by decide) (by decide) (by decide) (by rfl)
  refine ⟨h.1, ?_⟩
  rw [h.2 "socket_dir" (by decide) (by decide) (by decide) (by decide) (by decide)
    (by decide) (by decide) (by decide)]
  decide

/-- Claim C2 is refuted by the code: `include_re` is `^` plus the escaped
directive compiled without `re.MULTILINE`, so `search` only matches when
the file *starts* with the directive. On a `postgresql.conf` that does not
(here `"# managed by initdb"`), the first merge appends the directive at
the end, the search still fails on the merged file, and a second merge
appends a second copy: two include-directive lines. -/
theorem C2_include_merge_not_idempotent :
    includeSearch (mergeInclude "# managed by initdb") = false ∧
    includeLineCount (mergeInclude "# managed by initdb") = 1 ∧
    includeLineCount (mergeInclude (mergeInclude "# managed by initdb")) = 2 := by
  decide

/-- Claim C6: the override file is generated from exactly the
`config.`-prefixed options, keys sorted alphabetically, prefix stripped,
rendered `bare-key = value` and joined with newlines — for
`{config.port: 5433, config.unix_socket_permissions: 0700}` the content is
exactly `port = 5433\nunix_socket_permissions = 0700`, whatever the
dictionary order and whatever non-prefixed options are present. -/
theorem C6_override_file_content :
    localConf [(configDot ++ "port", "5433"),
        (configDot ++ "unix_socket_permissions", "0700")]
      = "port = 5433\nunix_socket_permissions = 0700" ∧
    localConf [(configDot ++ "unix_socket_permissions", "0700"),
        (configDot ++ "port", "5433")]
      = "port = 5433\nunix_socket_permissions = 0700" ∧
    localConf [("pgdata", "/data/pg"),
        (configDot ++ "unix_socket_permissions", "0700"),
        ("cmds", "createdb"), (configDot ++ "port", "5433")]
      = "port = 5433\nunix_socket_permissions = 0700" := by
  decide

/-- Claim C8 as stated is refuted by the code: `do_cmds` runs each command
with `subprocess.call`, whose return value is discarded, so a non-zero
exit does not abort the sequence. With both commands exiting 1, the second
command is still executed. -/
theorem C8_counterexample :
    do_cmds cmdsRecipe (fun _ => 1) =
      [Act.callCmd "/opt/pg/bin/createdb"
        [("PGHOST", "/tmp/sock"), ("PGPORT", "5432")] 1,
       Act.callCmd "/opt/pg/bin/psql"
        [("PGHOST", "/tmp/sock"), ("PGPORT", "5432")] 1] := by
  decide

theorem doCmdsLoop_map (b : String) (env : List (String × String))
    (e : Nat → Nat) : ∀ (l : List String) (i : Nat),
    (doCmdsLoop b env e i l).map cmdOf =
      (l.filter fun c => c ≠ "").map fun c => (b ++ "/" ++ c, env) := by
  intro l
  induction l with
  | nil => intro i; rfl
  | cons c rest ih =>
    intro i
    by_cases hc : c = "" <;> simp [doCmdsLoop, hc, cmdOf, ih]

/-- Claim C8, amended: the run-commands step executes the newline-separated
non-empty entries sequentially with `PGHOST`/`PGPORT` injected, and the
sequence of executed commands is independent of the exit codes — a failing
command does not abort the remaining sequence, because `subprocess.call`'s
return value is discarded. -/
theorem C8_cmds_exit_independent (r : Recipe) (e1 e2 : Nat → Nat) :
    (do_cmds r e1).map cmdOf =
      (if r.cmds = "" then []
       else ((pySplit '\n' r.cmds).filter fun c => c ≠ "").map
         fun c => (r.pg_bin_dir ++ "/" ++ c,
           [("PGHOST", r.socket_dir), ("PGPORT", r.port)])) ∧
    (do_cmds r e1).map cmdOf = (do_cmds r e2).map cmdOf := by
  have key : ∀ e : Nat → Nat, (do_cmds r e).map cmdOf =
      (if r.cmds = "" then []
       else ((pySplit '\n' r.cmds).filter fun c => c ≠ "").map
         fun c => (r.pg_bin_dir ++ "/" ++ c,
           [("PGHOST", r.socket_dir), ("PGPORT", r.port)])) := by
    intro e
    unfold do_cmds
    by_cases h : r.cmds = "" <;> simp [h, doCmdsLoop_map]
  exact ⟨key e1, (key e1).trans (key e2).symm⟩

/-- Claim C9: stop only issues the stop subprocess command when the PID
file is present, and then sleeps 4 time units; with the signal absent it is
a no-op, so uninstall on a never-started instance performs no subprocess
call and returns successfully. -/
theorem C9_stop_gated_by_pidfile (name : String)
    (opts : List (String × String)) (r : Recipe) (e : Nat)
    (hr : initRecipe none none name opts = Except.ok r) :
    (∀ (r2 : Recipe) (e2 : Nat), stopdb r2 false e2 = ([], Except.ok ())) ∧
    (∀ r2 : Recipe, stopdb r2 true 0 =
      ([Act.checkCall [r2.bin_pg_ctl, "stop"] 0, Act.sleep 4], Except.ok ())) ∧
    uninstallRun name opts false e = Except.ok [] := by
  refine ⟨fun r2 e2 => rfl, fun r2 => rfl, ?_⟩
  unfold uninstallRun
  rw [hr]
  rfl

theorem C9_witness :
    uninstallRun "pg"
      [("location", "/parts/pg"), ("pgdata", "/data/pg"),
       ("bin", "/opt/pg/bin"), ("bin-directory", "bin")] false 0 =
      Except.ok [] :=
  (C9_stop_gated_by_pidfile "pg"
    [("location", "/parts/pg"), ("pgdata", "/data/pg"),
     ("bin", "/opt/pg/bin"), ("bin-directory", "bin")]
    (recipeOf none none "pg"
      [("location", "/parts/pg"), ("pgdata", "/data/pg"),
       ("bin", "/opt/pg/bin"), ("bin-directory", "bin")])
    0 (by rfl)).2.2

theorem pollWait_all_fail (probe : Nat → Nat) (h : ∀ i, probe i ≠ 0) :
    ∀ (fuel i : Nat), pollWait probe i fuel = (failTrace i fuel, false) := by
  intro fuel
  induction fuel with
  | zero => intro i; rfl
  | succ n ih =>
    intro i
    have hl : is_db_listening (probe i) = false := by
      simp [is_db_listening]
      exact h i
    unfold pollWait
    rw [hl]
    simp [failTrace, ih (i + 1)]

theorem append_long_ne (n s t : String) (hs : t.length < s.length) :
    n ++ s ≠ t := by
  intro h
  have hl := congrArg String.length h
  rw [String.length_append] at hl
  omega

/-- Keys written by `create_bin_scripts` never collide with `k` under the
given side conditions, so lookups pass through. -/
theorem cbs_options_frame (r : Recipe) (k : String)
    (h1 : k ≠ "pg_ctl") (h2 : k ≠ "postgres") (h3 : k ≠ "psql")
    (h4 : k ≠ "pg_isready")
    (h5 : ∀ n : String, n ++ "_server" ≠ k) (h6 : ∀ n : String, n ++ "_client" ≠ k) :
    getOpt k (create_bin_scripts r).2.options = getOpt k r.options := by
  simp only [create_bin_scripts, create_bin_script]
  rw [getOpt_setKey_ne _ _ _ _ (h6 _), getOpt_setKey_ne _ _ _ _ (h5 _),
    getOpt_setKey_ne _ _ _ _ (Ne.symm h4), getOpt_setKey_ne _ _ _ _ (Ne.symm h3),
    getOpt_setKey_ne _ _ _ _ (Ne.symm h2), getOpt_setKey_ne _ _ _ _ (Ne.symm h1)]

/-- Claim C3: when the readiness probe never succeeds, start issues the
start (or restart) command and then performs exactly 10 probe attempts,
each followed by a fixed one-second sleep, before failing fatally with
"Failed to start postgres"; a probe's non-zero exit is treated as "not
ready yet" (a `false` from `is_db_listening`), not as an error — and
install on a fresh data directory fails with the same error. -/
theorem C3_readiness_timeout (r : Recipe) (pidfileExists : Bool)
    (probe : Nat → Nat) (h : ∀ i, probe i ≠ 0) :
    startdb r pidfileExists 0 probe =
      ([Act.checkCall [r.bin_pg_ctl, if pidfileExists then "restart" else "start"] 0,
        Act.probeCall 0, Act.sleep 1, Act.probeCall 1, Act.sleep 1,
        Act.probeCall 2, Act.sleep 1, Act.probeCall 3, Act.sleep 1,
        Act.probeCall 4, Act.sleep 1, Act.probeCall 5, Act.sleep 1,
        Act.probeCall 6, Act.sleep 1, Act.probeCall 7, Act.sleep 1,
        Act.probeCall 8, Act.sleep 1, Act.probeCall 9, Act.sleep 1],
       Except.error "Failed to start postgres") ∧
    (∀ c : Nat, c ≠ 0 → is_db_listening c = false) ∧
    (∀ (w : World) (s conf : String), w.pgdataExists = false →
      getOpt "initdb" r.options = some s → s ≠ "" → w.initdbExit = 0 →
      w.confFile = some conf → w.pgCtlExit = 0 → w.probe = probe →
      (install r w).2 = Except.error "Failed to start postgres") := by
  have hstart : ∀ (r2 : Recipe) (pf : Bool), startdb r2 pf 0 probe =
      (Act.checkCall [r2.bin_pg_ctl, if pf then "restart" else "start"] 0 ::
        failTrace 0 10, Except.error "Failed to start postgres") := by
    intro r2 pf
    unfold startdb
    rw [pollWait_all_fail probe h 10 0]
    simp
  refine ⟨?_, ?_, ?_⟩
  · rw [hstart r pidfileExists]
    rfl
  · intro c hc
    simp [is_db_listening]
    exact hc
  · intro w s conf h1 h2 h3 h4 h5 h6 h7
    have h2b : getOpt "initdb" (create_bin_scripts r).2.options = some s := by
      rw [cbs_options_frame r "initdb" (by decide) (by decide) (by decide) (by decide)
        (fun n => append_long_ne n "_server" "initdb" (by decide))
        (fun n => append_long_ne n "_client" "initdb" (by decide))]
      exact h2
    have hini : initdbRun (create_bin_scripts r).2 false w.initdbExit =
        ([Act.callInitdb
            (pathJoin (create_bin_scripts r).2.pg_bin_dir "initdb" ++ " " ++ s)
            0], Except.ok ()) := by
      unfold initdbRun
      rw [h2b, h4]
      simp [h3]
    unfold install
    rw [h1, h5, h6, h7]
    simp only [configure]
    rw [hstart (create_bin_scripts r).2 w.pidfileAtStart, hini]
    rfl

theorem C3_witness :
    startdb cmdsRecipe false 0 (fun _ => 1) =
      ([Act.checkCall ["", "start"] 0,
        Act.probeCall 0, Act.sleep 1, Act.probeCall 1, Act.sleep 1,
        Act.probeCall 2, Act.sleep 1, Act.probeCall 3, Act.sleep 1,
        Act.probeCall 4, Act.sleep 1, Act.probeCall 5, Act.sleep 1,
        Act.probeCall 6, Act.sleep 1, Act.probeCall 7, Act.sleep 1,
        Act.probeCall 8, Act.sleep 1, Act.probeCall 9, Act.sleep 1],
       Except.error "Failed to start postgres") :=
  (C3_readiness_timeout cmdsRecipe false (fun _ => 1)
    (fun _ => Nat.one_ne_zero)).1

theorem cbs_no_subprocess (r : Recipe) :
    ((create_bin_scripts r).1.all fun a => !a.isSubprocess) = true := by
  simp [create_bin_scripts, create_bin_script, Act.isSubprocess]

theorem configure_no_subprocess (r : Recipe) (c : String) :
    ((configure r (some c)).1.all fun a => !a.isSubprocess) = true := by
  unfold configure
  by_cases h : includeSearch c <;> simp [h, Act.isSubprocess]

/-- Claim C1: when the data directory already exists, install performs the
wrapper-script regeneration, possibly the location mkdir, and the
configuration merge, then returns the location — its trace contains no
subprocess action at all, so the initialization binary, the start command,
the run-commands list and the stop command are never invoked. -/
theorem C1_existing_pgdata_configure_only (r : Recipe) (w : World) (c : String)
    (hd : w.pgdataExists = true) (hc : w.confFile = some c) :
    install r w =
      ((create_bin_scripts r).1 ++
        (if w.locationExists then []
         else [Act.mkdir ((getOpt "location" (create_bin_scripts r).2.options).getD "")]) ++
        (configure (create_bin_scripts r).2 (some c)).1,
       Except.ok ((getOpt "location" (create_bin_scripts r).2.options).getD "")) ∧
    ((install r w).1.all fun a => !a.isSubprocess) = true := by
  have heq : install r w =
      ((create_bin_scripts r).1 ++
        (if w.locationExists then []
         else [Act.mkdir ((getOpt "location" (create_bin_scripts r).2.options).getD "")]) ++
        (configure (create_bin_scripts r).2 (some c)).1,
       Except.ok ((getOpt "location" (create_bin_scripts r).2.options).getD "")) := by
    unfold install
    rw [hd, hc]
    rfl
  refine ⟨heq, ?_⟩
  rw [heq]
  simp only [List.all_append]
  rw [cbs_no_subprocess, configure_no_subprocess]
  by_cases hl : w.locationExists <;> simp [hl, Act.isSubprocess]

theorem C1_witness :
    ((install (recipeOf (some "/parts") none "pg"
        [("pgdata", "/data/pg"), ("bin", "/opt/pg/bin")]) sampleWorld).1.all
      fun a => !a.isSubprocess) = true :=
  (C1_existing_pgdata_configure_only
    (recipeOf (some "/parts") none "pg"
      [("pgdata", "/data/pg"), ("bin", "/opt/pg/bin")])
    sampleWorld "" (by rfl) (by rfl)).2
